import Mathlib

/-!
Shallow embedding of `src/client.c` and `src/server.c`, a single-shot TCP
client/server pair.  Bytes are modelled as `Nat`, buffers and wire payloads as
`List Nat`, and console lines as `String`.  Socket calls are modelled by an
environment that records the outcome of each OS call; the network is modelled
as a byte list delivered to a single blocking `recv`, which reads
`min (available, requested)` bytes, the deterministic full-delivery model of a
one-message TCP exchange.
-/

namespace StreamSocket

/-- `BUFFER_SIZE` from both `client.c` and `server.c`. -/
def BUFFER_SIZE : Nat := 100

/-- `BACKLOG` from `server.c`. -/
def BACKLOG : Nat := 5

/-- The `RESPONSE` string literal from `server.c`. -/
def RESPONSE : String := "Server acknowledged your message!"

/-- Bytes of a Lean string literal (ASCII code points). -/
def strBytes (s : String) : List Nat := s.data.map Char.toNat

/-- Render a byte list back as a string, as `printf("%s", …)` renders chars. -/
def bytesToString (l : List Nat) : String := String.mk (l.map Char.ofNat)

/-- The C string stored in a buffer: all bytes before the first null. -/
def cString (l : List Nat) : List Nat := l.takeWhile (fun c => c ≠ 0)

/-- C `strlen` on a buffer: number of bytes before the first null. -/
def strlenB (l : List Nat) : Nat := (cString l).length

/-- C `strcspn(buffer, "\n")`: length of the initial segment of the C string
containing no newline (scanning stops at a null or a newline byte). -/
def strcspnNL (l : List Nat) : Nat :=
  (l.takeWhile (fun c => c ≠ 0 && c ≠ 10)).length

/-- ASCII decimal digit test, as used by `strtol`/`atoi`. -/
def isDigitB (c : Nat) : Bool := 48 ≤ c && c ≤ 57

/-- Accumulate the value of a maximal leading digit run (base 10). -/
def digitsAcc : List Nat → Nat → Nat
  | [], acc => acc
  | c :: rest, acc =>
      if isDigitB c then digitsAcc rest (acc * 10 + (c - 48)) else acc

/-- C `isspace` for the default locale, used by `strtol`/`atoi` to skip
leading whitespace. -/
def isSpaceB (c : Nat) : Bool := c = 32 || (9 ≤ c && c ≤ 13)

/-- `strtol(s, NULL, 10)` before clamping: skip whitespace, read an optional
sign, then the maximal digit run; anything after the digit run is ignored,
and no digits yields 0. -/
def strtol10 (s : List Nat) : Int :=
  let t := s.dropWhile isSpaceB
  match t with
  | 43 :: rest => (digitsAcc rest 0 : Int)
  | 45 :: rest => - (digitsAcc rest 0 : Int)
  | _ => (digitsAcc t 0 : Int)

def LONG_MAX : Int := 2 ^ 63 - 1

def LONG_MIN : Int := - (2 ^ 63)

/-- `strtol` clamps out-of-range results to `LONG_MAX`/`LONG_MIN`. -/
def clampLong (x : Int) : Int := max LONG_MIN (min LONG_MAX x)

/-- Conversion of the `long` result to the 32-bit `int` variable `port`,
modelled as two's-complement wraparound (the behaviour of the common
implementations this code targets). -/
def toInt32 (x : Int) : Int := (x + 2 ^ 31) % 2 ^ 32 - 2 ^ 31

/-- The port value stored by `client.c` (`*port = strtol(argv[2], NULL, 10)`)
and by `server.c` (`int port = atoi(argv[1])`; glibc `atoi` is
`(int) strtol(nptr, NULL, 10)`). -/
def parsePort (s : List Nat) : Int := toInt32 (clampLong (strtol10 s))

/-- `client.c` `parse_arguments`: usage check, `strcpy` of `argv[1]` (tracked
separately for the overflow analysis), port parse and range check.  `Except`
carries the stderr line of the exit-1 paths. -/
def client_parse_arguments (argc : Nat) (arg2 : List Nat) : Except String Int :=
  if argc < 3 then Except.error "usage is: client <ipaddr> <portnumber>"
  else
    let port := parsePort arg2
    if port ≤ 0 ∨ 65535 < port then
      Except.error
        s!"Error: Invalid port number \x27{bytesToString arg2}\x27. Must be between 1 and 65535."
    else Except.ok port

/-- `server.c` `parse_arguments`. -/
def server_parse_arguments (argc : Nat) (arg1 : List Nat) : Except String Int :=
  if argc < 2 then Except.error "usage is: server <portnumber>"
  else
    let port := parsePort arg1
    if port ≤ 0 ∨ 65535 < port then
      Except.error
        s!"Error: Invalid port number \x27{bytesToString arg1}\x27. Must be between 1 and 65535."
    else Except.ok port

/-- The characters `fgets(buffer, n+1, stdin)` stores before the terminator:
it copies input bytes until a newline (kept) or until `n` characters. -/
def takeLine : Nat → List Nat → List Nat
  | 0, _ => []
  | _ + 1, [] => []
  | k + 1, c :: rest => if c = 10 then [10] else c :: takeLine k rest

/-- Buffer contents after `fgets(buffer, n, stdin)`: at most `n - 1` input
characters followed by a null terminator. -/
def fgetsBuf (n : Nat) (input : List Nat) : List Nat :=
  takeLine (n - 1) input ++ [0]

/-- Result of the client's `send_message` (`client.c`): whether it returned 0,
and the bytes handed to `send` (the string plus its null terminator). -/
structure SendResult where
  ok : Bool
  sentBytes : List Nat
  deriving Repr, DecidableEq

/-- `client.c` `send_message`: `fgets` into a 100-byte buffer, overwrite the
byte at `strcspn(buffer, "\n")` with a null (newline strip), then
`send(sd, buffer, strlen(buffer) + 1, 0)`.  `sendErr` injects a failing
`send`, in which case no bytes are transmitted and -1 is returned. -/
def send_message (sendErr : Bool) (input : List Nat) : SendResult :=
  let buffer := fgetsBuf BUFFER_SIZE input
  let buffer := buffer.set (strcspnNL buffer) 0
  if sendErr then ⟨false, []⟩
  else ⟨true, buffer.take (strlenB buffer + 1)⟩

/-- The bytes a non-failing client transmits for a given stdin content. -/
def clientSentBytes (input : List Nat) : List Nat :=
  (send_message false input).sentBytes

/-- Result of a receive routine: the C return value, the 100-byte buffer
after the call, and the stdout lines printed. -/
structure RecvResult where
  rc : Int
  buffer : List Nat
  output : List String
  deriving Repr, DecidableEq

/-- `server.c` `receive_message`: `memset` the buffer to zero, then
`recv(client_sd, buffer, buf_size - 1, 0)` with `buf_size = BUFFER_SIZE`;
a failed recv returns -1, zero bytes reports the disconnect and returns 0,
otherwise the byte after the received data is nulled and the count and
message are printed.  `wire` is the byte stream available to this recv. -/
def receive_message (err : Bool) (wire : List Nat) : RecvResult :=
  let buf0 := List.replicate BUFFER_SIZE 0
  if err then ⟨-1, buf0, []⟩
  else
    let rc := min wire.length (BUFFER_SIZE - 1)
    let buf1 := wire.take rc ++ buf0.drop rc
    if rc = 0 then ⟨0, buf1, ["Client disconnected before sending data."]⟩
    else
      let buf2 := buf1.set rc 0
      ⟨(rc : Int), buf2,
        [s!"Received {rc} bytes", s!"Message: {bytesToString (cString buf2)}"]⟩

/-- `client.c` `receive_response`: `memset`, `recv(sd, buffer, BUFFER_SIZE - 1, 0)`;
-1 on a failed recv, -1 (after a report) when the server closed without
responding, otherwise null-terminate, print the response and return 0. -/
def receive_response (err : Bool) (wire : List Nat) : RecvResult :=
  let buf0 := List.replicate BUFFER_SIZE 0
  if err then ⟨-1, buf0, []⟩
  else
    let rc := min wire.length (BUFFER_SIZE - 1)
    let buf1 := wire.take rc ++ buf0.drop rc
    if rc = 0 then ⟨-1, buf1, ["Server closed the connection without responding."]⟩
    else
      let buf2 := buf1.set rc 0
      ⟨0, buf2, [s!"Server response: {bytesToString (cString buf2)}"]⟩

/-- The bytes `server.c` `send_response` hands to
`send(client_sd, response, strlen(response) + 1, 0)`: the `RESPONSE` literal
plus its null terminator. -/
def responseBytes : List Nat := strBytes RESPONSE ++ [0]

/-- The byte count `recv` is asked for in `server.c` `receive_message`. -/
def serverRecvRequest : Nat := BUFFER_SIZE - 1

/-- The byte count `recv` is asked for in `client.c` `receive_response`. -/
def clientRecvRequest : Nat := BUFFER_SIZE - 1

/-- Outcome of one OS call environment for `client.c` `main`: argument count,
the raw port argument, the result of `socket()` (`none` = failure), whether
`connect` succeeded, whether `send` fails, the stdin contents, whether the
response `recv` fails, and the response bytes the server delivered. -/
structure ClientEnv where
  argc : Nat
  portArg : List Nat
  socketFd : Option Nat
  connectOk : Bool
  sendErr : Bool
  stdinInput : List Nat
  recvErr : Bool
  respWire : List Nat
  deriving Repr, DecidableEq

/-- Observable outcome of one process run: exit status, descriptors opened,
descriptors closed, payloads handed to successful `send` calls, and the
stderr lines (usage errors and `perror` prefixes). -/
structure RunOutcome where
  exitCode : Nat
  opened : List Nat
  closed : List Nat
  sent : List (List Nat)
  errOut : List String
  deriving Repr, DecidableEq

/-- `client.c` `main`: parse arguments, `create_client_socket` (socket +
connect, each fatal with exit 1, connect failure closing the socket first),
`send_message`, `receive_response` only if the send succeeded, `cleanup`,
`return 0`.  The results of `send_message` and `receive_response` do not
affect the return value (`client.c:178-186`). -/
def clientRun (e : ClientEnv) : RunOutcome :=
  match client_parse_arguments e.argc e.portArg with
  | Except.error msg => ⟨1, [], [], [], [msg]⟩
  | Except.ok _ =>
    match e.socketFd with
    | none => ⟨1, [], [], [], ["Error: socket() failed"]⟩
    | some sd =>
      if ¬ e.connectOk then ⟨1, [sd], [sd], [], ["Error: connect() failed"]⟩
      else
        let sres := send_message e.sendErr e.stdinInput
        let sentList := if sres.ok then [sres.sentBytes] else []
        let recvRes :=
          if sres.ok then some (receive_response e.recvErr e.respWire) else none
        let errs :=
          (if sres.ok then [] else ["Error: send() failed"]) ++
            (match recvRes with
             | some r => if r.rc < 0 ∧ e.recvErr then ["Error: recv() failed"] else []
             | none => [])
        ⟨0, [sd], [sd], sentList, errs⟩

/-- Outcomes of the OS calls `server.c` `main` makes, in program order. -/
structure ServerEnv where
  argc : Nat
  portArg : List Nat
  socketFd : Option Nat
  setsockoptOk : Bool
  bindOk : Bool
  listenOk : Bool
  acceptFd : Option Nat
  recvErr : Bool
  wire : List Nat
  sendErr : Bool
  deriving Repr, DecidableEq

/-- `server.c` `main`: parse arguments, `create_server_socket` (socket,
setsockopt, bind, listen, each fatal with exit 1 after closing the socket),
`accept_client` (fatal, closing the listening socket), `receive_message`,
`send_response` only when a positive byte count was received, `cleanup`
(client socket first, then the listening socket), `return 0`. -/
def serverRun (e : ServerEnv) : RunOutcome :=
  match server_parse_arguments e.argc e.portArg with
  | Except.error msg => ⟨1, [], [], [], [msg]⟩
  | Except.ok _ =>
    match e.socketFd with
    | none => ⟨1, [], [], [], ["Error: socket() failed"]⟩
    | some sd =>
      if ¬ e.setsockoptOk then ⟨1, [sd], [sd], [], ["Error: setsockopt() failed"]⟩
      else if ¬ e.bindOk then ⟨1, [sd], [sd], [], ["Error: bind() failed"]⟩
      else if ¬ e.listenOk then ⟨1, [sd], [sd], [], ["Error: listen() failed"]⟩
      else
        match e.acceptFd with
        | none => ⟨1, [sd], [sd], [], ["Error: accept() failed"]⟩
        | some cd =>
          let r := receive_message e.recvErr e.wire
          let sentList := if 0 < r.rc ∧ ¬ e.sendErr then [responseBytes] else []
          let errs :=
            (if e.recvErr then ["Error: recv() failed"] else []) ++
              (if 0 < r.rc ∧ e.sendErr then ["Error: send() failed"] else [])
          ⟨0, [sd, cd], [cd, sd], sentList, errs⟩

/-- Capacity of `serverIP` in `client.c` `main` (`char serverIP[29]`). -/
def serverIPCapacity : Nat := 29

/-- Bytes written by `strcpy(serverIP, argv[1])`: every byte of the source
C string plus its null terminator.  `src` is the argument without its
terminator, as `argv` strings are. -/
def strcpyBytesWritten (src : List Nat) : Nat := strlenB (src ++ [0]) + 1

/-! ### List helper lemmas -/

lemma takeLine_append_newline (msg : List Nat) :
    ∀ k, msg.length < k → 10 ∉ msg → takeLine k (msg ++ [10]) = msg ++ [10] := by
  induction msg with
  | nil =>
    intro k hk _
    match k, hk with
    | k + 1, _ => simp [takeLine]
  | cons c rest ih =>
    intro k hk hmem
    match k, hk with
    | k + 1, hk =>
      have hc : ¬ c = 10 := fun h => hmem (by simp [h])
      simp only [List.cons_append, takeLine, if_neg hc, List.cons.injEq, true_and]
      exact ih k (by simpa using Nat.lt_of_succ_lt_succ hk)
        (fun h => hmem (List.mem_cons_of_mem _ h))

lemma takeWhile_append_stop (p : Nat → Bool) (A B : List Nat) (b : Nat)
    (hA : ∀ c ∈ A, p c = true) (hb : p b = false) :
    (A ++ b :: B).takeWhile p = A := by
  induction A with
  | nil => simp [List.takeWhile_cons, hb]
  | cons c rest ih =>
    have hc : p c = true := hA c (by simp)
    simp only [List.cons_append, List.takeWhile_cons, hc, if_pos trivial,
      List.cons.injEq, true_and]
    exact ih fun d hd => hA d (List.mem_cons_of_mem _ hd)

lemma set_append_len (A : List Nat) (b a : Nat) (B : List Nat) :
    (A ++ b :: B).set A.length a = A ++ a :: B := by
  induction A with
  | nil => rfl
  | cons c rest ih => simp [List.set, ih]

lemma getD_cons_replicate (k i : Nat) :
    ((0 : Nat) :: List.replicate k 0).getD i 0 = 0 := by
  induction k generalizing i with
  | zero =>
    match i with
    | 0 => rfl
    | 1 => rfl
    | n + 2 => rfl
  | succ k ih =>
    match i with
    | 0 => rfl
    | n + 1 =>
      simp only [List.replicate_succ, List.getD_cons_succ]
      exact ih n

/-- The buffer produced by a positive-length recv in `receive_message` /
`receive_response`: receiving `n` bytes into a zeroed 100-byte buffer and
nulling index `n` leaves every index from `n` on equal to zero. -/
lemma recvBuf_getD_zero (wire : List Nat) (n i : Nat)
    (hn : n ≤ wire.length) (h99 : n ≤ 99) (hi : n ≤ i) :
    ((wire.take n ++ (List.replicate 100 (0 : Nat)).drop n).set n 0).getD i 0 = 0 := by
  have hlen : (wire.take n).length = n := by
    simp [List.length_take, Nat.min_eq_left hn]
  have hrep : (List.replicate 100 (0 : Nat)).drop n
      = (0 : Nat) :: List.replicate (99 - n) 0 := by
    rw [List.drop_replicate]
    have : 100 - n = (99 - n) + 1 := by omega
    rw [this, List.replicate_succ]
  rw [hrep]
  have hset := set_append_len (wire.take n) 0 0 (List.replicate (99 - n) 0)
  rw [hlen] at hset
  rw [hset]
  rw [List.getD_append_right _ _ _ i (by rw [hlen]; exact hi)]
  rw [hlen]
  exact getD_cons_replicate _ _

lemma recvBuf_length (wire : List Nat) (n : Nat) (hn : n ≤ wire.length) (h100 : n ≤ 100) :
    ((wire.take n ++ (List.replicate 100 (0 : Nat)).drop n).set n 0).length = 100 := by
  simp [List.length_set, List.length_append, List.length_take, List.length_drop,
    Nat.min_eq_left hn]
  omega

/-- After a recv of `1 ≤ len ≤ 99` bytes, the buffer is exactly the received
bytes followed by zero padding. -/
lemma recvBuf_eq (wire : List Nat) (_h1 : wire.length ≠ 0) (h99 : wire.length ≤ 99) :
    ((wire.take wire.length ++ (List.replicate 100 (0 : Nat)).drop wire.length).set
        wire.length 0)
      = wire ++ List.replicate (100 - wire.length) 0 := by
  have hrep : (List.replicate 100 (0 : Nat)).drop wire.length
      = (0 : Nat) :: List.replicate (99 - wire.length) 0 := by
    rw [List.drop_replicate]
    have : 100 - wire.length = (99 - wire.length) + 1 := by omega
    rw [this, List.replicate_succ]
  rw [List.take_length, hrep]
  have hset := set_append_len wire 0 0 (List.replicate (99 - wire.length) 0)
  rw [hset]
  have : 100 - wire.length = (99 - wire.length) + 1 := by omega
  rw [this, List.replicate_succ]

lemma receive_message_rc (wire : List Nat) (h99 : wire.length ≤ 99) :
    (receive_message false wire).rc = (wire.length : Int) := by
  unfold receive_message
  simp only [BUFFER_SIZE, Bool.false_eq_true, if_false, Nat.min_eq_left h99]
  by_cases h : wire.length = 0 <;> simp [h]

lemma receive_message_buf (wire : List Nat) (h1 : wire.length ≠ 0)
    (h99 : wire.length ≤ 99) :
    (receive_message false wire).buffer = wire ++ List.replicate (100 - wire.length) 0 := by
  unfold receive_message
  simp only [BUFFER_SIZE, Bool.false_eq_true, if_false, Nat.min_eq_left h99, if_neg h1]
  exact recvBuf_eq wire h1 h99

lemma receive_response_buf (wire : List Nat) (h1 : wire.length ≠ 0)
    (h99 : wire.length ≤ 99) :
    (receive_response false wire).buffer = wire ++ List.replicate (100 - wire.length) 0 := by
  unfold receive_response
  simp only [BUFFER_SIZE, Bool.false_eq_true, if_false, Nat.min_eq_left h99, if_neg h1]
  exact recvBuf_eq wire h1 h99

/-- What the client transmits when the operator enters a line: the line's
characters with the newline stripped, plus one null terminator. -/
lemma clientSentBytes_eq (msg : List Nat) (hL : msg.length ≤ 98)
    (h0 : 0 ∉ msg) (h10 : 10 ∉ msg) :
    clientSentBytes (msg ++ [10]) = msg ++ [0] := by
  have hall : ∀ c ∈ msg, (decide (c ≠ 0) && decide (c ≠ 10)) = true := by
    intro c hc
    have hc0 : c ≠ 0 := fun h => h0 (h ▸ hc)
    have hc10 : c ≠ 10 := fun h => h10 (h ▸ hc)
    simp [hc0, hc10]
  have hfgets : fgetsBuf BUFFER_SIZE (msg ++ [10]) = msg ++ 10 :: [0] := by
    unfold fgetsBuf
    rw [show BUFFER_SIZE - 1 = 99 from rfl,
      takeLine_append_newline msg 99 (by omega) h10]
    simp
  have hcspn : strcspnNL (msg ++ 10 :: [0]) = msg.length := by
    unfold strcspnNL
    rw [takeWhile_append_stop _ msg [0] 10 hall (by simp)]
  have hset : (msg ++ 10 :: [0]).set msg.length 0 = msg ++ 0 :: [0] :=
    set_append_len msg 10 0 [0]
  have hstrlen : strlenB (msg ++ 0 :: [0]) = msg.length := by
    unfold strlenB cString
    rw [takeWhile_append_stop _ msg [0] 0 (fun c hc => by
      have := hall c hc
      simp only [Bool.and_eq_true] at this
      simpa using this.1) (by simp)]
  unfold clientSentBytes send_message
  simp only [Bool.false_eq_true, if_false, hfgets, hcspn, hset, hstrlen]
  have := @List.take_append Nat msg ((0 : Nat) :: [0]) 1
  simpa using this

lemma getD_replicate_zero (k i : Nat) :
    (List.replicate k (0 : Nat)).getD i 0 = 0 := by
  match k with
  | 0 => simp [List.getD]
  | k + 1 =>
    rw [List.replicate_succ]
    exact getD_cons_replicate k i

lemma min_len_ne_zero (wire : List Nat) (hw : wire ≠ []) :
    ¬ min wire.length (BUFFER_SIZE - 1) = 0 := by
  have : wire.length ≠ 0 := fun h => hw (List.length_eq_zero.mp h)
  have h99 : BUFFER_SIZE - 1 = 99 := rfl
  omega

lemma receive_message_false_length (wire : List Nat) :
    (receive_message false wire).buffer.length = 100 := by
  by_cases hw : wire = []
  · subst hw; decide
  · unfold receive_message
    simp only [Bool.false_eq_true, if_false]
    rw [if_neg (min_len_ne_zero wire hw)]
    simp only [show BUFFER_SIZE - 1 = 99 from rfl, show BUFFER_SIZE = 100 from rfl]
    exact recvBuf_length wire _ (Nat.min_le_left _ _)
      (le_trans (Nat.min_le_right _ _) (by norm_num))

lemma receive_message_false_getD (wire : List Nat) (i : Nat)
    (hi : min wire.length 99 ≤ i) :
    (receive_message false wire).buffer.getD i 0 = 0 := by
  by_cases hw : wire = []
  · subst hw
    show (List.replicate 100 (0 : Nat)).getD i 0 = 0
    exact getD_replicate_zero 100 i
  · unfold receive_message
    simp only [Bool.false_eq_true, if_false]
    rw [if_neg (min_len_ne_zero wire hw)]
    simp only [show BUFFER_SIZE - 1 = 99 from rfl, show BUFFER_SIZE = 100 from rfl]
    exact recvBuf_getD_zero wire _ i (Nat.min_le_left _ _) (Nat.min_le_right _ _) hi

lemma receive_message_false_rc_toNat (wire : List Nat) :
    (receive_message false wire).rc.toNat = min wire.length 99 := by
  by_cases hw : wire = []
  · subst hw; decide
  · unfold receive_message
    simp only [Bool.false_eq_true, if_false]
    rw [if_neg (min_len_ne_zero wire hw)]
    simp only [show BUFFER_SIZE - 1 = 99 from rfl]
    omega

lemma receive_response_false_length (wire : List Nat) :
    (receive_response false wire).buffer.length = 100 := by
  by_cases hw : wire = []
  · subst hw; decide
  · unfold receive_response
    simp only [Bool.false_eq_true, if_false]
    rw [if_neg (min_len_ne_zero wire hw)]
    simp only [show BUFFER_SIZE - 1 = 99 from rfl, show BUFFER_SIZE = 100 from rfl]
    exact recvBuf_length wire _ (Nat.min_le_left _ _)
      (le_trans (Nat.min_le_right _ _) (by norm_num))

lemma receive_response_false_getD (wire : List Nat) (i : Nat)
    (hi : min wire.length 99 ≤ i) :
    (receive_response false wire).buffer.getD i 0 = 0 := by
  by_cases hw : wire = []
  · subst hw
    show (List.replicate 100 (0 : Nat)).getD i 0 = 0
    exact getD_replicate_zero 100 i
  · unfold receive_response
    simp only [Bool.false_eq_true, if_false]
    rw [if_neg (min_len_ne_zero wire hw)]
    simp only [show BUFFER_SIZE - 1 = 99 from rfl, show BUFFER_SIZE = 100 from rfl]
    exact recvBuf_getD_zero wire _ i (Nat.min_le_left _ _) (Nat.min_le_right _ _) hi

/-! ### Claim theorems -/

/-- C1: for every operator-entered message of length L ≤ 98 bytes (no null,
no embedded newline), the client transmits L + 1 bytes — the string plus its
null terminator —, the server's recv returns those L + 1 bytes byte-identical
in its buffer (terminator included), and the server's fixed acknowledgement
is received byte-identical by the client's recv. -/
theorem c1_roundtrip (msg : List Nat) (hL : msg.length ≤ 98)
    (h0 : 0 ∉ msg) (h10 : 10 ∉ msg) :
    clientSentBytes (msg ++ [10]) = msg ++ [0] ∧
    (clientSentBytes (msg ++ [10])).length = msg.length + 1 ∧
    (receive_message false (clientSentBytes (msg ++ [10]))).rc
      = ((msg.length + 1 : Nat) : Int) ∧
    (receive_message false (clientSentBytes (msg ++ [10]))).buffer.take (msg.length + 1)
      = msg ++ [0] ∧
    (receive_response false responseBytes).rc = 0 ∧
    (receive_response false responseBytes).buffer.take 34 = responseBytes := by
  have hsent := clientSentBytes_eq msg hL h0 h10
  have hlen : (msg ++ [0]).length = msg.length + 1 := by simp
  have hlen99 : (msg ++ [0]).length ≤ 99 := by simp; omega
  refine ⟨hsent, by rw [hsent, hlen], ?_, ?_, by decide, by decide⟩
  · rw [hsent, receive_message_rc _ hlen99, hlen]
  · rw [hsent, receive_message_buf _ (by simp) hlen99]
    rw [← hlen, List.take_left]

/-- Witness for C1 at the concrete message "hi". -/
theorem c1_roundtrip_witness :
    clientSentBytes (strBytes "hi" ++ [10]) = strBytes "hi" ++ [0] ∧
    (clientSentBytes (strBytes "hi" ++ [10])).length = (strBytes "hi").length + 1 ∧
    (receive_message false (clientSentBytes (strBytes "hi" ++ [10]))).rc
      = (((strBytes "hi").length + 1 : Nat) : Int) ∧
    (receive_message false (clientSentBytes (strBytes "hi" ++ [10]))).buffer.take
        ((strBytes "hi").length + 1)
      = strBytes "hi" ++ [0] ∧
    (receive_response false responseBytes).rc = 0 ∧
    (receive_response false responseBytes).buffer.take 34 = responseBytes :=
  c1_roundtrip (strBytes "hi") (by decide) (by decide) (by decide)

/-- C8: on the input line "hello", the client strips the newline and sends
the 6 bytes `hello\0`, the server prints "Received 6 bytes" and
"Message: hello", and the client prints
"Server response: Server acknowledged your message!". -/
theorem c8_hello_scenario :
    clientSentBytes (strBytes "hello\n") = strBytes "hello" ++ [0] ∧
    (clientSentBytes (strBytes "hello\n")).length = 6 ∧
    (receive_message false (clientSentBytes (strBytes "hello\n"))).output
      = ["Received 6 bytes", "Message: hello"] ∧
    (receive_response false responseBytes).output
      = ["Server response: Server acknowledged your message!"] := by
  refine ⟨?_, ?_, ?_, ?_⟩ <;> rfl

/-- C9: a non-negative return `rc` of `receive_message` leaves a 100-byte
buffer with `rc ≤ 99`, a null byte at index `rc`, and zeroes at every index
from `rc` on; the buffer of `receive_response` satisfies the same property
at its received byte count. -/
theorem c9_recv_buffer_invariant (err : Bool) (wire wire2 : List Nat)
    (h : 0 ≤ (receive_message err wire).rc) :
    (receive_message err wire).buffer.length = BUFFER_SIZE ∧
    (receive_message err wire).rc.toNat ≤ BUFFER_SIZE - 1 ∧
    (∀ i, (receive_message err wire).rc.toNat ≤ i →
      (receive_message err wire).buffer.getD i 0 = 0) ∧
    (receive_response false wire2).buffer.length = BUFFER_SIZE ∧
    (∀ i, min wire2.length (BUFFER_SIZE - 1) ≤ i →
      (receive_response false wire2).buffer.getD i 0 = 0) := by
  match err with
  | true =>
    exfalso
    have : (receive_message true wire).rc = -1 := rfl
    rw [this] at h
    exact absurd h (by decide)
  | false =>
    refine ⟨receive_message_false_length wire, ?_, ?_,
      receive_response_false_length wire2, ?_⟩
    · rw [receive_message_false_rc_toNat, show BUFFER_SIZE - 1 = 99 from rfl]
      exact Nat.min_le_right _ _
    · intro i hi
      rw [receive_message_false_rc_toNat] at hi
      exact receive_message_false_getD wire i hi
    · intro i hi
      rw [show BUFFER_SIZE - 1 = 99 from rfl] at hi
      exact receive_response_false_getD wire2 i hi

/-- Witness for C9 at a concrete 3-byte wire. -/
theorem c9_recv_buffer_invariant_witness :
    (receive_message false (strBytes "ab" ++ [0])).buffer.length = BUFFER_SIZE ∧
    (receive_message false (strBytes "ab" ++ [0])).rc.toNat ≤ BUFFER_SIZE - 1 ∧
    (∀ i, (receive_message false (strBytes "ab" ++ [0])).rc.toNat ≤ i →
      (receive_message false (strBytes "ab" ++ [0])).buffer.getD i 0 = 0) ∧
    (receive_response false responseBytes).buffer.length = BUFFER_SIZE ∧
    (∀ i, min responseBytes.length (BUFFER_SIZE - 1) ≤ i →
      (receive_response false responseBytes).buffer.getD i 0 = 0) :=
  c9_recv_buffer_invariant false (strBytes "ab" ++ [0]) responseBytes (by decide)

/-- C2 counterexample: the port argument "12abc" is non-numeric, yet
`strtol`/`atoi` parse its numeric prefix 12, which is in range, so both
programs proceed to their socket calls and exit 0 instead of exiting 1. -/
theorem c2_counterexample :
    parsePort (strBytes "12abc") = 12 ∧
    (clientRun ⟨3, strBytes "12abc", some 3, true, false, strBytes "hi\n",
        false, responseBytes⟩).exitCode = 0 ∧
    (clientRun ⟨3, strBytes "12abc", some 3, true, false, strBytes "hi\n",
        false, responseBytes⟩).opened = [3] ∧
    (serverRun ⟨2, strBytes "12abc", some 3, true, true, true, some 4,
        false, strBytes "hi" ++ [0], false⟩).exitCode = 0 ∧
    (serverRun ⟨2, strBytes "12abc", some 3, true, true, true, some 4,
        false, strBytes "hi" ++ [0], false⟩).opened = [3, 4] := by
  refine ⟨by decide, ?_, ?_, ?_, ?_⟩ <;> decide

/-- C2 amended: for every port argument whose `strtol`/`atoi`-parsed value
(maximal numeric prefix, trailing characters ignored, converted to int) is
outside [1, 65535], both programs exit with status 1 and print a validation
error before making any socket call. -/
theorem c2_amended_invalid_port_exits (eC : ClientEnv) (eS : ServerEnv)
    (hC : ¬ eC.argc < 3) (hS : ¬ eS.argc < 2)
    (hpC : parsePort eC.portArg ≤ 0 ∨ 65535 < parsePort eC.portArg)
    (hpS : parsePort eS.portArg ≤ 0 ∨ 65535 < parsePort eS.portArg) :
    (clientRun eC).exitCode = 1 ∧ (clientRun eC).opened = [] ∧
    (clientRun eC).errOut ≠ [] ∧
    (serverRun eS).exitCode = 1 ∧ (serverRun eS).opened = [] ∧
    (serverRun eS).errOut ≠ [] := by
  unfold clientRun serverRun client_parse_arguments server_parse_arguments
  simp [hC, hS, hpC, hpS]

/-- Witness for the amended C2 at the out-of-range argument "70000". -/
theorem c2_amended_invalid_port_exits_witness :
    (clientRun ⟨3, strBytes "70000", some 3, true, false, strBytes "hi\n",
        false, responseBytes⟩).exitCode = 1 ∧
    (clientRun ⟨3, strBytes "70000", some 3, true, false, strBytes "hi\n",
        false, responseBytes⟩).opened = [] ∧
    (clientRun ⟨3, strBytes "70000", some 3, true, false, strBytes "hi\n",
        false, responseBytes⟩).errOut ≠ [] ∧
    (serverRun ⟨2, strBytes "70000", some 3, true, true, true, some 4,
        false, [], false⟩).exitCode = 1 ∧
    (serverRun ⟨2, strBytes "70000", some 3, true, true, true, some 4,
        false, [], false⟩).opened = [] ∧
    (serverRun ⟨2, strBytes "70000", some 3, true, true, true, some 4,
        false, [], false⟩).errOut ≠ [] :=
  c2_amended_invalid_port_exits _ _ (by decide) (by decide)
    (by right; decide) (by right; decide)

/-- C3: when the server's recv returns zero bytes (the client connected and
closed without sending), the server sends nothing and exits with status 0. -/
theorem c3_zero_read_no_response (e : ServerEnv) (sd cd : Nat)
    (h2 : ¬ e.argc < 2)
    (hp1 : 0 < parsePort e.portArg) (hp2 : parsePort e.portArg ≤ 65535)
    (hsock : e.socketFd = some sd) (hso : e.setsockoptOk = true)
    (hb : e.bindOk = true) (hl : e.listenOk = true)
    (hacc : e.acceptFd = some cd)
    (hr : e.recvErr = false) (hw : e.wire = []) :
    (serverRun e).sent = [] ∧ (serverRun e).exitCode = 0 := by
  have hport : ¬ (parsePort e.portArg ≤ 0 ∨ 65535 < parsePort e.portArg) := by omega
  unfold serverRun server_parse_arguments
  simp [h2, hport, hsock, hso, hb, hl, hacc, hr, hw, receive_message]

/-- Witness for C3 at port 9000 with an empty wire. -/
theorem c3_zero_read_no_response_witness :
    (serverRun ⟨2, strBytes "9000", some 3, true, true, true, some 4,
        false, [], false⟩).sent = [] ∧
    (serverRun ⟨2, strBytes "9000", some 3, true, true, true, some 4,
        false, [], false⟩).exitCode = 0 :=
  c3_zero_read_no_response _ 3 4 (by decide) (by decide) (by decide)
    rfl rfl rfl rfl rfl rfl rfl

/-- C4 counterexample: after a successful connect, the client's `main`
returns 0 no matter what `send_message` and `receive_response` report — a
failed send, a failed recv, and a server that closes without responding all
end with exit status 0, not 1 as the claim states. -/
theorem c4_counterexample :
    (clientRun ⟨3, strBytes "80", some 3, true, true, strBytes "hi\n",
        false, []⟩).exitCode = 0 ∧
    (clientRun ⟨3, strBytes "80", some 3, true, false, strBytes "hi\n",
        true, []⟩).exitCode = 0 ∧
    (clientRun ⟨3, strBytes "80", some 3, true, false, strBytes "hi\n",
        false, []⟩).exitCode = 0 := by
  refine ⟨?_, ?_, ?_⟩ <;> decide

/-- C4 amended: the client exits 1 exactly on an argument failure (missing
arguments or invalid port), a socket-creation failure, or a connect failure;
after a successful connect it exits 0 even when the send fails, the receive
fails, or the server closes without responding. -/
theorem c4_amended_client_exit_codes (e : ClientEnv) :
    ((clientRun e).exitCode = 1 ↔
      (e.argc < 3 ∨ (parsePort e.portArg ≤ 0 ∨ 65535 < parsePort e.portArg) ∨
        e.socketFd = none ∨ e.connectOk = false)) ∧
    ((clientRun e).exitCode = 0 ↔
      ¬ (e.argc < 3 ∨ (parsePort e.portArg ≤ 0 ∨ 65535 < parsePort e.portArg) ∨
        e.socketFd = none ∨ e.connectOk = false)) := by
  rcases e with ⟨argc, portArg, sockFd, conn, serr, inp, rerr, rw⟩
  unfold clientRun client_parse_arguments
  by_cases h1 : argc < 3
  · simp [h1]
  · by_cases h2 : parsePort portArg ≤ 0 ∨ 65535 < parsePort portArg
    · simp [h1, h2]
    · match sockFd with
      | none => simp [h1, h2]
      | some sd =>
        match conn with
        | false => simp [h1, h2]
        | true => simp [h1, h2]

/-- C5: whenever the server's recv returned a positive count and the send
succeeds, the server transmits exactly the fixed acknowledgement string plus
one trailing null byte — 34 bytes — and nothing else. -/
theorem c5_fixed_acknowledgement (e : ServerEnv) (sd cd : Nat)
    (h2 : ¬ e.argc < 2)
    (hp1 : 0 < parsePort e.portArg) (hp2 : parsePort e.portArg ≤ 65535)
    (hsock : e.socketFd = some sd) (hso : e.setsockoptOk = true)
    (hb : e.bindOk = true) (hl : e.listenOk = true)
    (hacc : e.acceptFd = some cd)
    (hpos : 0 < (receive_message e.recvErr e.wire).rc)
    (hsend : e.sendErr = false) :
    (serverRun e).sent = [responseBytes] ∧
    responseBytes = strBytes RESPONSE ++ [0] ∧
    responseBytes.length = 34 := by
  have hport : ¬ (parsePort e.portArg ≤ 0 ∨ 65535 < parsePort e.portArg) := by omega
  refine ⟨?_, rfl, by decide⟩
  unfold serverRun server_parse_arguments
  simp [h2, hport, hsock, hso, hb, hl, hacc, hpos, hsend]

/-- Witness for C5 at port 9000 with the 3-byte message "ab". -/
theorem c5_fixed_acknowledgement_witness :
    (serverRun ⟨2, strBytes "9000", some 3, true, true, true, some 4,
        false, strBytes "ab" ++ [0], false⟩).sent = [responseBytes] ∧
    responseBytes = strBytes RESPONSE ++ [0] ∧
    responseBytes.length = 34 :=
  c5_fixed_acknowledgement _ 3 4 (by decide) (by decide) (by decide)
    rfl rfl rfl rfl rfl (by decide) rfl

/-- C6 counterexample: a 100-byte message (99 payload bytes plus the null
terminator, exactly what the client sends for a maximal input line) is not
received whole: recv is asked for only `BUFFER_SIZE - 1 = 99` bytes, so the
received message carries 99 bytes, not up to 100. -/
theorem c6_counterexample :
    (List.replicate 99 65 ++ [0] : List Nat).length = 100 ∧
    (receive_message false (List.replicate 99 65 ++ [0])).rc = 99 ∧
    serverRecvRequest = 99 ∧ clientRecvRequest = 99 ∧ BUFFER_SIZE = 100 := by
  refine ⟨by decide, by decide, rfl, rfl, rfl⟩

/-- C6 amended: a single received application message carries at most 99
bytes: both sides ask recv for `BUFFER_SIZE - 1 = 99` bytes — one less than
the 100-byte buffer capacity — reserving the final byte for the forced null
terminator, so the server's recv return value never exceeds 99. -/
theorem c6_amended_recv_cap (err : Bool) (wire : List Nat) :
    serverRecvRequest = BUFFER_SIZE - 1 ∧
    clientRecvRequest = BUFFER_SIZE - 1 ∧
    BUFFER_SIZE = 100 ∧
    (receive_message err wire).rc ≤ 99 := by
  refine ⟨rfl, rfl, rfl, ?_⟩
  match err with
  | true =>
    have : (receive_message true wire).rc = -1 := rfl
    rw [this]; decide
  | false =>
    have h := receive_message_false_rc_toNat wire
    have hge : 0 ≤ (receive_message false wire).rc := by
      by_cases hw : wire = []
      · subst hw; decide
      · unfold receive_message
        simp only [Bool.false_eq_true, if_false]
        rw [if_neg (min_len_ne_zero wire hw)]
        positivity
    omega

/-- C7: on every execution path of both programs, each socket descriptor
that was successfully opened is closed before the process exits. -/
theorem c7_all_opened_sockets_closed (eC : ClientEnv) (eS : ServerEnv) :
    (clientRun eC).opened ⊆ (clientRun eC).closed ∧
    (serverRun eS).opened ⊆ (serverRun eS).closed := by
  constructor
  · unfold clientRun
    rcases client_parse_arguments eC.argc eC.portArg with msg | port
    · simp
    · match eC.socketFd with
      | none => simp
      | some sd =>
        by_cases hc : eC.connectOk
        · simp [hc]
        · simp [hc]
  · unfold serverRun
    rcases server_parse_arguments eS.argc eS.portArg with msg | port
    · simp
    · match eS.socketFd with
      | none => simp
      | some sd =>
        by_cases h1 : eS.setsockoptOk
        · by_cases h2 : eS.bindOk
          · by_cases h3 : eS.listenOk
            · match eS.acceptFd with
              | none => simp [h1, h2, h3]
              | some cd =>
                simp only [h1, h2, h3, if_neg, if_pos]
                intro x hx
                simp at hx
                rcases hx with hx | hx <;> simp [hx]
            · simp [h1, h2, h3]
          · simp [h1, h2]
        · simp [h1]

/-- Witness for C7: the client's connected socket 3 is closed. -/
theorem c7_all_opened_sockets_closed_witness :
    3 ∈ (clientRun ⟨3, strBytes "80", some 3, true, false, strBytes "hi\n",
        false, responseBytes⟩).closed :=
  (c7_all_opened_sockets_closed
      ⟨3, strBytes "80", some 3, true, false, strBytes "hi\n", false, responseBytes⟩
      ⟨2, strBytes "80", some 3, true, true, true, some 4, false, [], false⟩).1
    (by decide)

/-- C10: `client.c` copies `argv[1]` into the 29-byte `serverIP` array with
an unbounded `strcpy`; the bytes written (the argument plus its terminator)
fit within the array exactly when the argument is at most 28 characters
long, and any longer argument overruns the array. -/
theorem c10_strcpy_bound (src : List Nat) (h0 : 0 ∉ src) :
    serverIPCapacity = 29 ∧
    (strcpyBytesWritten src ≤ serverIPCapacity ↔ src.length ≤ 28) := by
  have hall : ∀ c ∈ src, decide (c ≠ 0) = true := by
    intro c hc
    have : c ≠ 0 := fun h => h0 (h ▸ hc)
    simpa using this
  have hlen : strlenB (src ++ [0]) = src.length := by
    unfold strlenB cString
    rw [takeWhile_append_stop _ src [] 0 hall (by simp)]
  refine ⟨rfl, ?_⟩
  unfold strcpyBytesWritten serverIPCapacity
  rw [hlen]
  omega

/-- Witness for C10 at the in-bounds argument "127.0.0.1". -/
theorem c10_strcpy_bound_witness :
    serverIPCapacity = 29 ∧
    (strcpyBytesWritten (strBytes "127.0.0.1") ≤ serverIPCapacity ↔
      (strBytes "127.0.0.1").length ≤ 28) :=
  c10_strcpy_bound (strBytes "127.0.0.1") (by decide)

end StreamSocket
